import Mathlib

/-!
Verification development for the Luna metered-conversation billing engine.

The definitions below are shallow embeddings of the billing code in
`netlify/functions/chat-gemini.ts` (chat handler, cost arithmetic) and
`netlify/functions/stripe-webhook-handler.ts` (subscription webhook state
machine), plus the alternative chat-handler revision bundled in the repository
(the one that saves the user's message before the model call) and the
alternative webhook revision bundled with chat-gemini.ts.

JavaScript numbers used for money are modelled as exact rationals (the dollar
literals 1.25, 2.50, 10.00, 15.00 and the multiplier 250 are all exactly
representable in binary floating point, so the rational model matches the
source values on the inputs of interest), token counts as naturals, and energy
balances as integers.  External effects (Firestore reads/writes, Stripe
lookups, the Gemini call) are modelled by explicit state passing and oracle
functions.
-/

namespace Luna

/-! ### Cost arithmetic, from chat-gemini.ts

`const ENERGY_COST_MULTIPLIER = 250;`
`const GEMINI_PRICING = { FLASH: { PROMPT_UNDER_200K_USD: 1.25,
  PROMPT_OVER_200K_USD: 2.50, OUTPUT_UNDER_200K_USD: 10.00,
  OUTPUT_OVER_200K_USD: 15.00, THRESHOLD_TOKENS: 200000 } };`
-/

def ENERGY_COST_MULTIPLIER : ℚ := 250

structure PricingTier where
  PROMPT_UNDER_200K_USD : ℚ
  PROMPT_OVER_200K_USD : ℚ
  OUTPUT_UNDER_200K_USD : ℚ
  OUTPUT_OVER_200K_USD : ℚ
  THRESHOLD_TOKENS : ℕ
deriving DecidableEq

def GEMINI_PRICING_FLASH : PricingTier :=
  { PROMPT_UNDER_200K_USD := 5 / 4        -- 1.25
    PROMPT_OVER_200K_USD := 5 / 2         -- 2.50
    OUTPUT_UNDER_200K_USD := 10           -- 10.00
    OUTPUT_OVER_200K_USD := 15            -- 15.00
    THRESHOLD_TOKENS := 200000 }

/-- `calculateGeminiCost` from chat-gemini.ts (lines 72-77): the tier is selected by
`inputTokens > pricingTier.THRESHOLD_TOKENS` (strict), then the cost is
`(inputTokens / 1_000_000) * inputPrice + (outputTokens / 1_000_000) * outputPrice`. -/
def calculateGeminiCost (inputTokens outputTokens : ℕ) (pricingTier : PricingTier) : ℚ :=
  let inputPrice := if pricingTier.THRESHOLD_TOKENS < inputTokens
    then pricingTier.PROMPT_OVER_200K_USD else pricingTier.PROMPT_UNDER_200K_USD
  let outputPrice := if pricingTier.THRESHOLD_TOKENS < inputTokens
    then pricingTier.OUTPUT_OVER_200K_USD else pricingTier.OUTPUT_UNDER_200K_USD
  (inputTokens : ℚ) / 1000000 * inputPrice + (outputTokens : ℚ) / 1000000 * outputPrice

/-- `generationConfig.maxOutputTokens` (chat-gemini.ts line 69), as read by
`const maxOutputTokensEstimate = generationConfig.maxOutputTokens ?? 2048;`. -/
def maxOutputTokensEstimate : ℕ := 8192

/-- The handler's post-call `costUsd` (chat-gemini.ts lines 237-238): always the
UNDER_200K prices, with no tier selection. -/
def costUsd (inputTokens outputTokens : ℕ) : ℚ :=
  (inputTokens : ℚ) / 1000000 * GEMINI_PRICING_FLASH.PROMPT_UNDER_200K_USD
    + (outputTokens : ℚ) / 1000000 * GEMINI_PRICING_FLASH.OUTPUT_UNDER_200K_USD

/-- The handler's post-call `energyCost = Math.ceil(costUsd * ENERGY_COST_MULTIPLIER)`
(chat-gemini.ts line 239). -/
def energyCost (inputTokens outputTokens : ℕ) : ℤ :=
  ⌈costUsd inputTokens outputTokens * ENERGY_COST_MULTIPLIER⌉

/-- The handler's pre-call `maxPotentialTotalCostUsd` (chat-gemini.ts lines 171-173):
estimated input tokens at the UNDER_200K prompt price plus the configured maximum
output tokens at the UNDER_200K output price. -/
def maxPotentialTotalCostUsd (estimatedInputTokens : ℕ) : ℚ :=
  (estimatedInputTokens : ℚ) / 1000000 * GEMINI_PRICING_FLASH.PROMPT_UNDER_200K_USD
    + (maxOutputTokensEstimate : ℚ) / 1000000 * GEMINI_PRICING_FLASH.OUTPUT_UNDER_200K_USD

/-- The handler's pre-call `maxPotentialEnergyCost = Math.ceil(maxPotentialTotalCostUsd
* ENERGY_COST_MULTIPLIER)` (chat-gemini.ts line 175). -/
def maxPotentialEnergyCost (estimatedInputTokens : ℕ) : ℤ :=
  ⌈maxPotentialTotalCostUsd estimatedInputTokens * ENERGY_COST_MULTIPLIER⌉

/-! ### Chat handler state machine, from chat-gemini.ts

The handler is embedded from the point where authentication, body parsing and
the user-document fetch have succeeded (the earlier stages return 401/403/400/
404 without touching any state).  The external token counter and the Gemini
call are oracle inputs: `estimatedInputTokens` is the `countTokens` result (the
code substitutes 0 when `countTokens` throws), and `ModelCallResult` is the
outcome of `chat.sendMessage` together with the optional `usageMetadata`. -/

inductive Role
  | user
  | assistant
deriving DecidableEq

structure ChatTurn where
  role : Role
  content : String
  tokenCost : Option (ℕ × ℕ × ℕ)   -- {input, output, total}, on assistant turns
  usdCost : Option ℚ
  energyCost : Option ℤ
deriving DecidableEq

/-- The user-turn document written by the handler: role and content only. -/
def userTurn (content : String) : ChatTurn :=
  { role := Role.user, content := content, tokenCost := none, usdCost := none,
    energyCost := none }

/-- The assistant-turn document written by the post-call batch: content plus
`tokenCost`, `usdCost` and `energyCost` fields. -/
def assistantTurn (content : String) (inputTokens outputTokens totalTokens : ℕ) : ChatTurn :=
  { role := Role.assistant, content := content,
    tokenCost := some (inputTokens, outputTokens, totalTokens),
    usdCost := some (costUsd inputTokens outputTokens),
    energyCost := some (energyCost inputTokens outputTokens) }

/-- The durable per-account state touched by the chat handler: the energy
balance field of the user document and the chatHistory subcollection in
ascending timestamp order. -/
structure ChatState where
  energyPoints : ℤ
  chatHistory : List ChatTurn
deriving DecidableEq

/-- Outcome of the `chat.sendMessage` call: an exception, or a response text
with optional `usageMetadata` `(promptTokenCount, candidatesTokenCount,
totalTokenCount)`. -/
inductive ModelCallResult
  | failure
  | success (text : String) (usage : Option (ℕ × ℕ × ℕ))
deriving DecidableEq

/-- HTTP response of the chat endpoint (the constructors carry the body fields
the claims are about). `unhandledException500` is the platform-level 500
produced when the model call throws and the exception propagates. -/
inductive ChatResponse
  | reject402 (currentBalance estimatedCost : ℤ)
  | err500 (reply : String) (state_saved : Bool)
  | ok200 (reply : String) (updatedEnergyBalance : ℤ)
  | unhandledException500
  | saveFailed500
deriving DecidableEq

/-- `inputTokens` after the call (chat-gemini.ts lines 218-234): the
`promptTokenCount` from `usageMetadata` when present, else the pre-computed
estimate. -/
def resolvedInputTokens (estimatedInputTokens : ℕ) : Option (ℕ × ℕ × ℕ) → ℕ
  | some u => u.1
  | none => estimatedInputTokens

/-- `outputTokens` after the call: `candidatesTokenCount` when usage metadata is
present, else `maxOutputTokensEstimate`. -/
def resolvedOutputTokens : Option (ℕ × ℕ × ℕ) → ℕ
  | some u => u.2.1
  | none => maxOutputTokensEstimate

/-- `totalTokens` after the call: `totalTokenCount` when usage metadata is
present, else `inputTokens + outputTokens`. -/
def resolvedTotalTokens (estimatedInputTokens : ℕ) : Option (ℕ × ℕ × ℕ) → ℕ
  | some u => u.2.2
  | none => estimatedInputTokens + maxOutputTokensEstimate

/-- The post-call commit of chat-gemini.ts (lines 244-286): compute the new
balance from the actual energy cost; if it would be negative, return 500 with
the generated reply and `state_saved: false` without writing anything;
otherwise commit one batch appending the user turn and the assistant turn and
updating the balance. -/
def chatCommit (st : ChatState) (userMessageContent geminiResponseText : String)
    (inputTokens outputTokens totalTokens : ℕ) : ChatResponse × ChatState :=
  if st.energyPoints - energyCost inputTokens outputTokens < 0 then
    (ChatResponse.err500 geminiResponseText false, st)
  else
    (ChatResponse.ok200 geminiResponseText (st.energyPoints - energyCost inputTokens outputTokens),
     { energyPoints := st.energyPoints - energyCost inputTokens outputTokens,
       chatHistory := st.chatHistory
         ++ [userTurn userMessageContent,
             assistantTurn geminiResponseText inputTokens outputTokens totalTokens] })

/-- The chat handler of chat-gemini.ts from the admission check onward (lines
181-302): reject with 402 when the worst-case estimate exceeds the balance
(before any model call and without touching state); otherwise run the model
call; a thrown model call propagates with no further writes; a successful call
goes through the post-call commit. -/
def chatHandler (st : ChatState) (estimatedInputTokens : ℕ) (userMessageContent : String)
    (modelResult : ModelCallResult) : ChatResponse × ChatState :=
  if maxPotentialEnergyCost estimatedInputTokens > st.energyPoints then
    (ChatResponse.reject402 st.energyPoints (maxPotentialEnergyCost estimatedInputTokens), st)
  else
    match modelResult with
    | ModelCallResult.failure => (ChatResponse.unhandledException500, st)
    | ModelCallResult.success text usage =>
        chatCommit st userMessageContent text
          (resolvedInputTokens estimatedInputTokens usage)
          (resolvedOutputTokens usage)
          (resolvedTotalTokens estimatedInputTokens usage)

/-- The post-call commit of the revised chat handler (the version embedded in
check-email-exists.ts, lines 459-472): the user turn is already persisted, so
the batch writes only the assistant turn and the balance; the negative-balance
abort is identical. -/
def chatCommitV2 (st1 : ChatState) (geminiResponseText : String)
    (inputTokens outputTokens totalTokens : ℕ) : ChatResponse × ChatState :=
  if st1.energyPoints - energyCost inputTokens outputTokens < 0 then
    (ChatResponse.err500 geminiResponseText false, st1)
  else
    (ChatResponse.ok200 geminiResponseText (st1.energyPoints - energyCost inputTokens outputTokens),
     { energyPoints := st1.energyPoints - energyCost inputTokens outputTokens,
       chatHistory := st1.chatHistory
         ++ [assistantTurn geminiResponseText inputTokens outputTokens totalTokens] })

/-- The revised chat handler after the eager user-message save: balance check,
model call, post-call commit (check-email-exists.ts lines 324-490). -/
def chatAfterSaveV2 (st1 : ChatState) (estimatedInputTokens : ℕ)
    (modelResult : ModelCallResult) : ChatResponse × ChatState :=
  if maxPotentialEnergyCost estimatedInputTokens > st1.energyPoints then
    (ChatResponse.reject402 st1.energyPoints (maxPotentialEnergyCost estimatedInputTokens), st1)
  else
    match modelResult with
    | ModelCallResult.failure => (ChatResponse.unhandledException500, st1)
    | ModelCallResult.success text usage =>
        chatCommitV2 st1 text
          (resolvedInputTokens estimatedInputTokens usage)
          (resolvedOutputTokens usage)
          (resolvedTotalTokens estimatedInputTokens usage)

/-- The revised chat handler (check-email-exists.ts lines 306-490): it first
persists the user's turn (`chatCollectionRef.add` before the Gemini call,
lines 306-322; `saveUserMessageOk` is whether that write succeeded) and only
then checks the balance and calls the model. -/
def chatHandlerV2 (st : ChatState) (saveUserMessageOk : Bool) (estimatedInputTokens : ℕ)
    (userMessageContent : String) (modelResult : ModelCallResult) : ChatResponse × ChatState :=
  match saveUserMessageOk with
  | true =>
    chatAfterSaveV2
      { st with chatHistory := st.chatHistory ++ [userTurn userMessageContent] }
      estimatedInputTokens modelResult
  | false =>
    (ChatResponse.saveFailed500, st)

/-! ### Subscription webhook state machine, from stripe-webhook-handler.ts -/

/-- `const MONTHLY_ENERGY_GRANT = 11111;` (stripe-webhook-handler.ts line 49). -/
def MONTHLY_ENERGY_GRANT : ℤ := 11111

/-- `const ANNUAL_ENERGY_GRANT = 111111;` (stripe-webhook-handler.ts line 50). -/
def ANNUAL_ENERGY_GRANT : ℤ := 111111

/-- A Stripe subscription object, with the fields the handler reads:
`items.data[0]?.price.id`, `status`, `customer`, `current_period_start`,
`current_period_end`, and `id`. -/
structure StripeSubscription where
  id : String
  status : String
  customer : String
  priceId : Option String
  current_period_start : Option ℤ
  current_period_end : Option ℤ
deriving DecidableEq

/-- A Stripe checkout session, with the fields the handler reads. -/
structure CheckoutSession where
  id : String
  mode : String
  customer : Option String
  subscription : Option String
  metadataFirebaseUid : Option String
deriving DecidableEq

/-- The per-account Firestore user document as mutated by the standalone
webhook handler (chat history elided; it is never touched by the webhook). -/
structure UserDoc where
  energyPoints : ℤ
  stripeCustomerId : Option String
  stripeSubscriptionId : Option String
  stripeRole : Option String
  subscriptionStatus : Option String
  currentPeriodStart : Option ℤ
  currentPeriodEnd : Option ℤ
  priceId : Option String
deriving DecidableEq

/-- External collaborators of the webhook handler: the configured price ids and
the Stripe lookups (`stripe.subscriptions.retrieve`, and the customer-id to
Firebase-uid resolution of `getFirebaseUidFromCustomerId`; `none` models a
thrown/failed lookup or missing metadata). -/
structure WebhookEnv where
  monthlyPriceId : String
  annualPriceId : String
  retrieveSubscription : String → Option StripeSubscription
  uidFromCustomer : String → Option String

/-- `getRoleFromSubscription` (stripe-webhook-handler.ts lines 69-83): a role
only for status `active` or `trialing`, by comparing the first item's price id
with the configured plan price ids. -/
def getRoleFromSubscription (env : WebhookEnv) :
    Option StripeSubscription → Option String
  | none => none
  | some subscription =>
    if subscription.status = "active" ∨ subscription.status = "trialing" then
      match subscription.priceId with
      | some priceId =>
        if priceId = env.monthlyPriceId then some "monthly"
        else if priceId = env.annualPriceId then some "annual"
        else none
      | none => none
    else none

/-- The grant selected by the checkout-completed Firestore update
(stripe-webhook-handler.ts lines 215-217):
`roleToSet === 'monthly' ? MONTHLY_ENERGY_GRANT : ANNUAL_ENERGY_GRANT`. -/
def checkoutGrant (roleToSet : Option String) : ℤ :=
  if roleToSet = some "monthly" then MONTHLY_ENERGY_GRANT else ANNUAL_ENERGY_GRANT

/-- The Firestore `set(..., merge: true)` performed for checkout.session.completed
(stripe-webhook-handler.ts lines 206-225): write customer/subscription ids, role,
status, period fields and price id, and increment `energyPoints` by the grant. -/
def applyCheckoutUpdate (doc : UserDoc) (customerId : String)
    (subscription : StripeSubscription) (roleToSet : Option String) : UserDoc :=
  { doc with
      stripeCustomerId := some customerId
      stripeSubscriptionId := some subscription.id
      stripeRole := roleToSet
      subscriptionStatus := some subscription.status
      currentPeriodStart := subscription.current_period_start
      currentPeriodEnd := subscription.current_period_end
      priceId := subscription.priceId
      energyPoints := doc.energyPoints + checkoutGrant roleToSet }

/-- The `checkout.session.completed` branch (stripe-webhook-handler.ts lines
177-242).  The state is the document of the account `accountId`; the update is
applied when the resolved Firebase uid is that account.  A failed
`subscriptions.retrieve` propagates to the outer catch and yields 500 with no
write; every other fall-through path logs and returns 200 with no write. -/
def processCheckoutCompleted (env : WebhookEnv) (accountId : String) (doc : UserDoc)
    (session : CheckoutSession) : UserDoc × ℕ :=
  match session.customer with
  | none => (doc, 200)
  | some customerId =>
    if session.mode = "subscription" then
      let firebaseUid := match session.metadataFirebaseUid with
        | some u => some u
        | none => env.uidFromCustomer customerId
      match session.subscription with
      | none => (doc, 200)
      | some subId =>
        match env.retrieveSubscription subId with
        | none => (doc, 500)
        | some subscription =>
          match firebaseUid with
          | none => (doc, 200)
          | some uid =>
            if uid = accountId then
              (applyCheckoutUpdate doc customerId subscription
                (getRoleFromSubscription env (some subscription)), 200)
            else (doc, 200)
    else (doc, 200)

/-- The Firestore `update` performed for customer.subscription.updated/deleted
(stripe-webhook-handler.ts lines 257-273): write subscription id, role, status,
period fields and price id; on deletion additionally `energyPoints = 0`. -/
def applySubscriptionUpdate (doc : UserDoc) (subscription : StripeSubscription)
    (roleToSet : Option String) (deleted : Bool) : UserDoc :=
  { doc with
      stripeSubscriptionId := some subscription.id
      stripeRole := roleToSet
      subscriptionStatus := some subscription.status
      currentPeriodStart := subscription.current_period_start
      currentPeriodEnd := subscription.current_period_end
      priceId := subscription.priceId
      energyPoints := if deleted then 0 else doc.energyPoints }

/-- The `customer.subscription.updated` / `customer.subscription.deleted` branch
(stripe-webhook-handler.ts lines 244-285): `roleToSet` is `null` for deletion and
`getRoleFromSubscription` otherwise; the update runs when the customer resolves
to the account. -/
def processSubscriptionEvent (env : WebhookEnv) (accountId : String) (doc : UserDoc)
    (deleted : Bool) (subscription : StripeSubscription) : UserDoc × ℕ :=
  match env.uidFromCustomer subscription.customer with
  | none => (doc, 200)
  | some uid =>
    if uid = accountId then
      (applySubscriptionUpdate doc subscription
        (if deleted then none else getRoleFromSubscription env (some subscription))
        deleted, 200)
    else (doc, 200)

/-- A verified webhook event, as dispatched by the switch in
stripe-webhook-handler.ts (lines 176-292). -/
inductive StripeEvent
  | checkoutSessionCompleted (session : CheckoutSession)
  | customerSubscriptionUpdated (subscription : StripeSubscription)
  | customerSubscriptionDeleted (subscription : StripeSubscription)
  | other
deriving DecidableEq

/-- The webhook handler's event dispatch on the document of account `accountId`
(unhandled event types are acknowledged with 200 and no write). -/
def processStripeEvent (env : WebhookEnv) (accountId : String) (doc : UserDoc) :
    StripeEvent → UserDoc × ℕ
  | StripeEvent.checkoutSessionCompleted session =>
      processCheckoutCompleted env accountId doc session
  | StripeEvent.customerSubscriptionUpdated subscription =>
      processSubscriptionEvent env accountId doc false subscription
  | StripeEvent.customerSubscriptionDeleted subscription =>
      processSubscriptionEvent env accountId doc true subscription
  | StripeEvent.other => (doc, 200)

/-! ### The alternative webhook revision bundled with chat-gemini.ts -/

/-- The `users/{uid}/subscription/status` document written by the webhook
revision bundled with chat-gemini.ts (its `SubscriptionStatusData`). -/
structure SubscriptionStatusDoc where
  status : Option String
  plan : Option String
  endDate : Option ℤ
  stripeCustomerId : Option String
  stripeSubscriptionId : Option String
  energyBalance : ℤ
deriving DecidableEq

/-- `handleSubscriptionDeleted` of the webhook revision bundled with
chat-gemini.ts (lines 543-570): merge-write status `"canceled"`, clear plan and
endDate, record customer/subscription ids; no energy increment is passed, so
the energy balance is untouched (the `energyBalance: 0` reset is commented
out in the source). -/
def handleSubscriptionDeleted (uidFromCustomer : String → Option String)
    (accountId : String) (doc : SubscriptionStatusDoc)
    (subscription : StripeSubscription) : SubscriptionStatusDoc :=
  match uidFromCustomer subscription.customer with
  | none => doc
  | some uid =>
    if uid = accountId then
      { doc with
          status := some "canceled"
          plan := none
          endDate := none
          stripeCustomerId := some subscription.customer
          stripeSubscriptionId := some subscription.id }
    else doc

/-- The energy increment chosen by `handleCheckoutSessionCompleted` of the
webhook revision bundled with chat-gemini.ts (lines 482-486): 1111 for a
monthly plan and 11111 for an annual plan, only on activation or trial start. -/
def checkoutEnergyIncrementV2 (status : String) (plan : Option String) : ℤ :=
  if status = "active" ∨ status = "trialing" then
    if plan = some "monthly" then 1111
    else if plan = some "annual" then 11111
    else 0
  else 0

/-! ### Refinement reference for claim C4

The cost computation as the claim's words describe it (this definition follows
the claim, not the source, and exists only to be compared with the source
computations): the price tier is selected by whether the input token count is
at or above the fixed 200000-token threshold (lower prices strictly under it,
higher prices at or above it), and the USD amount is converted to energy as
the ceiling of usd times the energy multiplier. -/
def claimedTieredEnergyCost (inputTokens outputTokens : ℕ) : ℤ :=
  let inputPrice := if GEMINI_PRICING_FLASH.THRESHOLD_TOKENS ≤ inputTokens
    then GEMINI_PRICING_FLASH.PROMPT_OVER_200K_USD
    else GEMINI_PRICING_FLASH.PROMPT_UNDER_200K_USD
  let outputPrice := if GEMINI_PRICING_FLASH.THRESHOLD_TOKENS ≤ inputTokens
    then GEMINI_PRICING_FLASH.OUTPUT_OVER_200K_USD
    else GEMINI_PRICING_FLASH.OUTPUT_UNDER_200K_USD
  ⌈((inputTokens : ℚ) / 1000000 * inputPrice + (outputTokens : ℚ) / 1000000 * outputPrice)
    * ENERGY_COST_MULTIPLIER⌉

/-! ### Concrete fixtures used by witnesses and counterexamples -/

def sampleChatState : ChatState := { energyPoints := 100, chatHistory := [] }

def sampleSubscription : StripeSubscription :=
  { id := "sub_1", status := "active", customer := "cus_1",
    priceId := some "price_monthly", current_period_start := some 1745000000,
    current_period_end := some 1747000000 }

def canceledSubscription : StripeSubscription :=
  { id := "sub_1", status := "canceled", customer := "cus_1",
    priceId := some "price_monthly", current_period_start := some 1745000000,
    current_period_end := some 1747000000 }

def otherPriceSubscription : StripeSubscription :=
  { id := "sub_2", status := "active", customer := "cus_1",
    priceId := some "price_other", current_period_start := some 1745000000,
    current_period_end := some 1747000000 }

def sampleEnv : WebhookEnv :=
  { monthlyPriceId := "price_monthly", annualPriceId := "price_annual",
    retrieveSubscription := fun subId =>
      if subId = "sub_1" then some sampleSubscription
      else if subId = "sub_2" then some otherPriceSubscription
      else none,
    uidFromCustomer := fun customerId =>
      if customerId = "cus_1" then some "uid_1" else none }

def sampleSession : CheckoutSession :=
  { id := "cs_1", mode := "subscription", customer := some "cus_1",
    subscription := some "sub_1", metadataFirebaseUid := some "uid_1" }

def otherPriceSession : CheckoutSession :=
  { id := "cs_2", mode := "subscription", customer := some "cus_1",
    subscription := some "sub_2", metadataFirebaseUid := some "uid_1" }

def emptyUserDoc : UserDoc :=
  { energyPoints := 0, stripeCustomerId := none, stripeSubscriptionId := none,
    stripeRole := none, subscriptionStatus := none, currentPeriodStart := none,
    currentPeriodEnd := none, priceId := none }

def richUserDoc : UserDoc :=
  { energyPoints := 500, stripeCustomerId := some "cus_1",
    stripeSubscriptionId := some "sub_1", stripeRole := some "monthly",
    subscriptionStatus := some "active", currentPeriodStart := some 1745000000,
    currentPeriodEnd := some 1747000000, priceId := some "price_monthly" }

def richSubStatusDoc : SubscriptionStatusDoc :=
  { status := some "active", plan := some "monthly", endDate := some 1747000000,
    stripeCustomerId := some "cus_1", stripeSubscriptionId := some "sub_1",
    energyBalance := 500 }

/-! ### Evaluation lemmas for the concrete cost values -/

theorem maxPotentialEnergyCost_zero : maxPotentialEnergyCost 0 = 21 := by
  unfold maxPotentialEnergyCost maxPotentialTotalCostUsd maxOutputTokensEstimate
    GEMINI_PRICING_FLASH ENERGY_COST_MULTIPLIER
  rw [Int.ceil_eq_iff]
  norm_num

theorem maxPotentialEnergyCost_414000 : maxPotentialEnergyCost 414000 = 150 := by
  unfold maxPotentialEnergyCost maxPotentialTotalCostUsd maxOutputTokensEstimate
    GEMINI_PRICING_FLASH ENERGY_COST_MULTIPLIER
  rw [Int.ceil_eq_iff]
  norm_num

theorem maxPotentialEnergyCost_300000 : maxPotentialEnergyCost 300000 = 115 := by
  unfold maxPotentialEnergyCost maxPotentialTotalCostUsd maxOutputTokensEstimate
    GEMINI_PRICING_FLASH ENERGY_COST_MULTIPLIER
  rw [Int.ceil_eq_iff]
  norm_num

theorem energyCost_1000000_0 : energyCost 1000000 0 = 313 := by
  unfold energyCost costUsd GEMINI_PRICING_FLASH ENERGY_COST_MULTIPLIER
  rw [Int.ceil_eq_iff]
  norm_num

theorem energyCost_300000_0 : energyCost 300000 0 = 94 := by
  unfold energyCost costUsd GEMINI_PRICING_FLASH ENERGY_COST_MULTIPLIER
  rw [Int.ceil_eq_iff]
  norm_num

theorem claimedTieredEnergyCost_300000_0 : claimedTieredEnergyCost 300000 0 = 188 := by
  unfold claimedTieredEnergyCost GEMINI_PRICING_FLASH ENERGY_COST_MULTIPLIER
  rw [Int.ceil_eq_iff]
  norm_num

theorem claimedTieredEnergyCost_300000_max :
    claimedTieredEnergyCost 300000 maxOutputTokensEstimate = 219 := by
  unfold claimedTieredEnergyCost maxOutputTokensEstimate GEMINI_PRICING_FLASH
    ENERGY_COST_MULTIPLIER
  rw [Int.ceil_eq_iff]
  norm_num

/-! ### Balance non-negativity helpers -/

theorem chatCommit_energyPoints_nonneg (st : ChatState) (m t : String) (i o tt : ℕ)
    (h : 0 ≤ st.energyPoints) : 0 ≤ ((chatCommit st m t i o tt).2).energyPoints := by
  unfold chatCommit
  split_ifs with hneg
  · exact h
  · exact not_lt.mp hneg

theorem chatHandler_energyPoints_nonneg (st : ChatState) (est : ℕ) (msg : String)
    (mr : ModelCallResult) (h : 0 ≤ st.energyPoints) :
    0 ≤ ((chatHandler st est msg mr).2).energyPoints := by
  unfold chatHandler
  split_ifs with hrej
  · exact h
  · cases mr with
    | failure => exact h
    | success text usage => exact chatCommit_energyPoints_nonneg _ _ _ _ _ _ h

theorem chatCommitV2_energyPoints_nonneg (st1 : ChatState) (t : String) (i o tt : ℕ)
    (h : 0 ≤ st1.energyPoints) : 0 ≤ ((chatCommitV2 st1 t i o tt).2).energyPoints := by
  unfold chatCommitV2
  split_ifs with hneg
  · exact h
  · exact not_lt.mp hneg

theorem chatAfterSaveV2_energyPoints_nonneg (st1 : ChatState) (est : ℕ)
    (mr : ModelCallResult) (h : 0 ≤ st1.energyPoints) :
    0 ≤ ((chatAfterSaveV2 st1 est mr).2).energyPoints := by
  unfold chatAfterSaveV2
  split_ifs with hrej
  · exact h
  · cases mr with
    | failure => exact h
    | success text usage => exact chatCommitV2_energyPoints_nonneg _ _ _ _ _ h

theorem chatHandlerV2_energyPoints_nonneg (st : ChatState) (ok : Bool) (est : ℕ)
    (msg : String) (mr : ModelCallResult) (h : 0 ≤ st.energyPoints) :
    0 ≤ ((chatHandlerV2 st ok est msg mr).2).energyPoints := by
  unfold chatHandlerV2
  cases ok with
  | true => exact chatAfterSaveV2_energyPoints_nonneg _ _ _ h
  | false => exact h

theorem checkoutGrant_nonneg (r : Option String) : 0 ≤ checkoutGrant r := by
  unfold checkoutGrant MONTHLY_ENERGY_GRANT ANNUAL_ENERGY_GRANT
  split_ifs <;> norm_num

theorem processCheckoutCompleted_energyPoints_nonneg (env : WebhookEnv)
    (accountId : String) (doc : UserDoc) (session : CheckoutSession)
    (h : 0 ≤ doc.energyPoints) :
    0 ≤ ((processCheckoutCompleted env accountId doc session).1).energyPoints := by
  unfold processCheckoutCompleted applyCheckoutUpdate
  repeat' split
  all_goals dsimp only
  all_goals repeat' split
  all_goals first
    | exact h
    | exact add_nonneg h (checkoutGrant_nonneg _)

theorem processSubscriptionEvent_energyPoints_nonneg (env : WebhookEnv)
    (accountId : String) (doc : UserDoc) (deleted : Bool)
    (subscription : StripeSubscription) (h : 0 ≤ doc.energyPoints) :
    0 ≤ ((processSubscriptionEvent env accountId doc deleted subscription).1).energyPoints := by
  unfold processSubscriptionEvent applySubscriptionUpdate
  cases deleted
  all_goals repeat' split
  all_goals first | exact h | exact le_refl 0

theorem processStripeEvent_energyPoints_nonneg (env : WebhookEnv) (accountId : String)
    (doc : UserDoc) (ev : StripeEvent) (h : 0 ≤ doc.energyPoints) :
    0 ≤ ((processStripeEvent env accountId doc ev).1).energyPoints := by
  cases ev with
  | checkoutSessionCompleted session =>
      exact processCheckoutCompleted_energyPoints_nonneg _ _ _ _ h
  | customerSubscriptionUpdated subscription =>
      exact processSubscriptionEvent_energyPoints_nonneg _ _ _ _ _ h
  | customerSubscriptionDeleted subscription =>
      exact processSubscriptionEvent_energyPoints_nonneg _ _ _ _ _ h
  | other => exact h

theorem handleSubscriptionDeleted_energyBalance_eq (f : String → Option String)
    (accountId : String) (doc : SubscriptionStatusDoc) (sub : StripeSubscription) :
    (handleSubscriptionDeleted f accountId doc sub).energyBalance = doc.energyBalance := by
  unfold handleSubscriptionDeleted
  repeat' split
  all_goals rfl

/-! ### Claims -/

/-- C1: for every account and every operation that commits state — the chat
debit commit (both chat-handler revisions) and every subscription-webhook
mutation (including the alternative revision's subscription-deleted handler) —
a non-negative energy balance before the operation is non-negative after it
commits; no committed state has a negative balance. -/
theorem claim_C1_balance_nonneg :
    (∀ (st : ChatState) (est : ℕ) (msg : String) (mr : ModelCallResult),
      0 ≤ st.energyPoints → 0 ≤ ((chatHandler st est msg mr).2).energyPoints)
  ∧ (∀ (st : ChatState) (ok : Bool) (est : ℕ) (msg : String) (mr : ModelCallResult),
      0 ≤ st.energyPoints → 0 ≤ ((chatHandlerV2 st ok est msg mr).2).energyPoints)
  ∧ (∀ (env : WebhookEnv) (accountId : String) (doc : UserDoc) (ev : StripeEvent),
      0 ≤ doc.energyPoints → 0 ≤ ((processStripeEvent env accountId doc ev).1).energyPoints)
  ∧ (∀ (f : String → Option String) (accountId : String) (doc : SubscriptionStatusDoc)
      (sub : StripeSubscription), 0 ≤ doc.energyBalance →
      0 ≤ (handleSubscriptionDeleted f accountId doc sub).energyBalance) := by
  refine ⟨?_, ?_, ?_, ?_⟩
  · intro st est msg mr h
    exact chatHandler_energyPoints_nonneg st est msg mr h
  · intro st ok est msg mr h
    exact chatHandlerV2_energyPoints_nonneg st ok est msg mr h
  · intro env accountId doc ev h
    exact processStripeEvent_energyPoints_nonneg env accountId doc ev h
  · intro f accountId doc sub h
    rw [handleSubscriptionDeleted_energyBalance_eq]
    exact h

/-- Witness for C1 at concrete inputs. -/
theorem claim_C1_balance_nonneg_witness :
    0 ≤ ((chatHandler sampleChatState 0 "hi" ModelCallResult.failure).2).energyPoints
  ∧ 0 ≤ ((chatHandlerV2 sampleChatState true 0 "hi" ModelCallResult.failure).2).energyPoints
  ∧ 0 ≤ ((processStripeEvent sampleEnv "uid_1" emptyUserDoc StripeEvent.other).1).energyPoints
  ∧ 0 ≤ (handleSubscriptionDeleted sampleEnv.uidFromCustomer "uid_1" richSubStatusDoc
        sampleSubscription).energyBalance :=
  ⟨claim_C1_balance_nonneg.1 sampleChatState 0 "hi" ModelCallResult.failure (by decide),
   claim_C1_balance_nonneg.2.1 sampleChatState true 0 "hi" ModelCallResult.failure (by decide),
   claim_C1_balance_nonneg.2.2.1 sampleEnv "uid_1" emptyUserDoc StripeEvent.other (by decide),
   claim_C1_balance_nonneg.2.2.2 sampleEnv.uidFromCustomer "uid_1" richSubStatusDoc
     sampleSubscription (by decide)⟩

/-- C2: whenever the worst-case energy estimate exceeds the current balance,
the chat endpoint answers 402 carrying the current balance and the estimated
cost, leaves the state untouched (no debit), and the outcome does not depend
on the model oracle (no model call is consulted): the equation holds for every
`mr`. -/
theorem claim_C2_insufficient_balance_402 (st : ChatState) (est : ℕ) (msg : String)
    (mr : ModelCallResult) (h : maxPotentialEnergyCost est > st.energyPoints) :
    chatHandler st est msg mr
      = (ChatResponse.reject402 st.energyPoints (maxPotentialEnergyCost est), st) := by
  unfold chatHandler
  rw [if_pos h]

/-- Witness for C2: the claim's concrete scenario, balance 100 and worst-case
estimate 150 (estimated input tokens 414000), rejects with currentBalance 100
and estimatedCost 150 and no state change. -/
theorem claim_C2_insufficient_balance_402_witness :
    maxPotentialEnergyCost 414000 = 150
  ∧ chatHandler sampleChatState 414000 "hello" ModelCallResult.failure
      = (ChatResponse.reject402 100 150, sampleChatState) := by
  refine ⟨maxPotentialEnergyCost_414000, ?_⟩
  rw [claim_C2_insufficient_balance_402 sampleChatState 414000 "hello" ModelCallResult.failure
      (by rw [maxPotentialEnergyCost_414000]; norm_num [sampleChatState])]
  rw [maxPotentialEnergyCost_414000]
  rfl

/-- C3 counterexample: the actual post-call cost is computed from the actual
prompt token count, which can exceed the pre-call estimate (the code even
falls back to estimate 0 when `countTokens` throws).  With estimated input 0
and actual usage of 1000000 prompt tokens and 0 output tokens (an output
length within the configured maximum), the pre-call estimate is 21 energy but
the actual cost is 313 energy, so the estimate does not dominate. -/
theorem claim_C3_estimate_dominates_cex :
    maxPotentialEnergyCost 0 = 21
  ∧ energyCost 1000000 0 = 313
  ∧ (0 : ℕ) ≤ maxOutputTokensEstimate
  ∧ ¬ (energyCost 1000000 0 ≤ maxPotentialEnergyCost 0) := by
  refine ⟨maxPotentialEnergyCost_zero, energyCost_1000000_0,
    by norm_num [maxOutputTokensEstimate], ?_⟩
  rw [maxPotentialEnergyCost_zero, energyCost_1000000_0]
  norm_num

/-- C3 amended: provided the actual input token count does not exceed the
pre-call estimated input token count, the worst-case energy estimate is
greater than or equal to the actual energy cost for every actual output
length at most the configured maximum output tokens. -/
theorem claim_C3_estimate_dominates (est aIn out : ℕ) (hin : aIn ≤ est)
    (hout : out ≤ maxOutputTokensEstimate) :
    energyCost aIn out ≤ maxPotentialEnergyCost est := by
  unfold energyCost maxPotentialEnergyCost
  apply Int.ceil_le_ceil
  apply mul_le_mul_of_nonneg_right _ (by norm_num [ENERGY_COST_MULTIPLIER])
  unfold costUsd maxPotentialTotalCostUsd
  have h1 : (aIn : ℚ) ≤ (est : ℚ) := by exact_mod_cast hin
  have h2 : (out : ℚ) ≤ ((maxOutputTokensEstimate : ℕ) : ℚ) := by exact_mod_cast hout
  simp only [GEMINI_PRICING_FLASH]
  linarith

/-- Witness for C3 amended at concrete token counts. -/
theorem claim_C3_estimate_dominates_witness :
    energyCost 1000 100 ≤ maxPotentialEnergyCost 1000 :=
  claim_C3_estimate_dominates 1000 1000 100 (le_refl 1000)
    (by norm_num [maxOutputTokensEstimate])

/-- C4 counterexample: at 300000 input tokens — at/above the 200000 threshold —
the handler's post-call cost is 94 energy and its pre-call estimate 115 energy,
because both always use the UNDER_200K prices, while the tiered computation the
claim describes would give 188 and 219; so neither handler computation selects
a price tier by the threshold. -/
theorem claim_C4_cost_tiering_cex :
    energyCost 300000 0 = 94
  ∧ claimedTieredEnergyCost 300000 0 = 188
  ∧ energyCost 300000 0 ≠ claimedTieredEnergyCost 300000 0
  ∧ maxPotentialEnergyCost 300000 = 115
  ∧ claimedTieredEnergyCost 300000 maxOutputTokensEstimate = 219
  ∧ maxPotentialEnergyCost 300000 ≠ claimedTieredEnergyCost 300000 maxOutputTokensEstimate := by
  refine ⟨energyCost_300000_0, claimedTieredEnergyCost_300000_0, ?_,
    maxPotentialEnergyCost_300000, claimedTieredEnergyCost_300000_max, ?_⟩
  · rw [energyCost_300000_0, claimedTieredEnergyCost_300000_0]
    norm_num
  · rw [maxPotentialEnergyCost_300000, claimedTieredEnergyCost_300000_max]
    norm_num

/-- C4 amended: `calculateGeminiCost` selects the price tier by whether the
input token count strictly exceeds the 200000 threshold (lower prices at or
under it, higher prices strictly above it, the output tier also chosen by
input size), while the handler's pre-call estimate and post-call actual cost
computations always use the UNDER_200K prices regardless of input size; in
every case the USD amount is converted to integer energy as the ceiling of
usd * energyMultiplier — the energy value is at least usd * 250 and less than
usd * 250 + 1, so it is the ceiling and never the floor. -/
theorem claim_C4_cost_tiering_amended :
    (∀ (i o : ℕ), i ≤ GEMINI_PRICING_FLASH.THRESHOLD_TOKENS →
      calculateGeminiCost i o GEMINI_PRICING_FLASH
        = (i : ℚ) / 1000000 * GEMINI_PRICING_FLASH.PROMPT_UNDER_200K_USD
          + (o : ℚ) / 1000000 * GEMINI_PRICING_FLASH.OUTPUT_UNDER_200K_USD)
  ∧ (∀ (i o : ℕ), GEMINI_PRICING_FLASH.THRESHOLD_TOKENS < i →
      calculateGeminiCost i o GEMINI_PRICING_FLASH
        = (i : ℚ) / 1000000 * GEMINI_PRICING_FLASH.PROMPT_OVER_200K_USD
          + (o : ℚ) / 1000000 * GEMINI_PRICING_FLASH.OUTPUT_OVER_200K_USD)
  ∧ (∀ (i o : ℕ), costUsd i o
        = (i : ℚ) / 1000000 * GEMINI_PRICING_FLASH.PROMPT_UNDER_200K_USD
          + (o : ℚ) / 1000000 * GEMINI_PRICING_FLASH.OUTPUT_UNDER_200K_USD)
  ∧ (∀ (est : ℕ), maxPotentialTotalCostUsd est
        = (est : ℚ) / 1000000 * GEMINI_PRICING_FLASH.PROMPT_UNDER_200K_USD
          + (maxOutputTokensEstimate : ℚ) / 1000000 * GEMINI_PRICING_FLASH.OUTPUT_UNDER_200K_USD)
  ∧ (∀ (i o : ℕ), costUsd i o * ENERGY_COST_MULTIPLIER ≤ ((energyCost i o : ℤ) : ℚ)
        ∧ ((energyCost i o : ℤ) : ℚ) < costUsd i o * ENERGY_COST_MULTIPLIER + 1)
  ∧ (∀ (est : ℕ), maxPotentialTotalCostUsd est * ENERGY_COST_MULTIPLIER
          ≤ ((maxPotentialEnergyCost est : ℤ) : ℚ)
        ∧ ((maxPotentialEnergyCost est : ℤ) : ℚ)
          < maxPotentialTotalCostUsd est * ENERGY_COST_MULTIPLIER + 1) := by
  refine ⟨?_, ?_, ?_, ?_, ?_, ?_⟩
  · intro i o hle
    simp only [calculateGeminiCost]
    rw [if_neg (not_lt.mpr hle)]
    rw [if_neg (not_lt.mpr hle)]
  · intro i o hgt
    simp only [calculateGeminiCost]
    rw [if_pos hgt]
    rw [if_pos hgt]
  · intro i o
    rfl
  · intro est
    rfl
  · intro i o
    exact ⟨Int.le_ceil _, Int.ceil_lt_add_one _⟩
  · intro est
    exact ⟨Int.le_ceil _, Int.ceil_lt_add_one _⟩

/-- Witness for C4 amended at concrete token counts on both sides of the
threshold. -/
theorem claim_C4_cost_tiering_amended_witness :
    calculateGeminiCost 100 50 GEMINI_PRICING_FLASH
      = (100 : ℚ) / 1000000 * GEMINI_PRICING_FLASH.PROMPT_UNDER_200K_USD
        + (50 : ℚ) / 1000000 * GEMINI_PRICING_FLASH.OUTPUT_UNDER_200K_USD
  ∧ calculateGeminiCost 300000 50 GEMINI_PRICING_FLASH
      = (300000 : ℚ) / 1000000 * GEMINI_PRICING_FLASH.PROMPT_OVER_200K_USD
        + (50 : ℚ) / 1000000 * GEMINI_PRICING_FLASH.OUTPUT_OVER_200K_USD
  ∧ costUsd 100 50
      = (100 : ℚ) / 1000000 * GEMINI_PRICING_FLASH.PROMPT_UNDER_200K_USD
        + (50 : ℚ) / 1000000 * GEMINI_PRICING_FLASH.OUTPUT_UNDER_200K_USD
  ∧ (costUsd 100 50 * ENERGY_COST_MULTIPLIER ≤ ((energyCost 100 50 : ℤ) : ℚ)
      ∧ ((energyCost 100 50 : ℤ) : ℚ) < costUsd 100 50 * ENERGY_COST_MULTIPLIER + 1) :=
  ⟨claim_C4_cost_tiering_amended.1 100 50 (by norm_num [GEMINI_PRICING_FLASH]),
   claim_C4_cost_tiering_amended.2.1 300000 50 (by norm_num [GEMINI_PRICING_FLASH]),
   claim_C4_cost_tiering_amended.2.2.1 100 50,
   claim_C4_cost_tiering_amended.2.2.2.2.1 100 50⟩

/-- C5: replaying the same checkout-completed event is not idempotent: the
checkout branch increments `energyPoints` by the grant unconditionally (no
event-id de-duplication, no grant marker), so processing the same event twice
from balance 0 yields 22222 instead of the 11111 that a single processing
yields, and the final states differ. -/
theorem claim_C5_checkout_replay_double_grants :
    ((processStripeEvent sampleEnv "uid_1" emptyUserDoc
        (StripeEvent.checkoutSessionCompleted sampleSession)).1).energyPoints = 11111
  ∧ ((processStripeEvent sampleEnv "uid_1"
        ((processStripeEvent sampleEnv "uid_1" emptyUserDoc
          (StripeEvent.checkoutSessionCompleted sampleSession)).1)
        (StripeEvent.checkoutSessionCompleted sampleSession)).1).energyPoints = 22222
  ∧ (processStripeEvent sampleEnv "uid_1"
        ((processStripeEvent sampleEnv "uid_1" emptyUserDoc
          (StripeEvent.checkoutSessionCompleted sampleSession)).1)
        (StripeEvent.checkoutSessionCompleted sampleSession)).1
      ≠ (processStripeEvent sampleEnv "uid_1" emptyUserDoc
          (StripeEvent.checkoutSessionCompleted sampleSession)).1 := by
  decide

/-- Reduction of the chat handler on an admitted request with a successful
model call. -/
theorem chatHandler_success (st : ChatState) (est : ℕ) (msg text : String)
    (usage : Option (ℕ × ℕ × ℕ))
    (hadm : ¬ maxPotentialEnergyCost est > st.energyPoints) :
    chatHandler st est msg (ModelCallResult.success text usage)
      = chatCommit st msg text (resolvedInputTokens est usage) (resolvedOutputTokens usage)
          (resolvedTotalTokens est usage) := by
  unfold chatHandler
  rw [if_neg hadm]

/-- C6: on an admitted request whose actual energy cost would drive the
balance negative, the handler aborts without committing anything — the final
state equals the initial state (no assistant turn, no balance write) — and
returns 500 with the generated reply and `state_saved: false`. -/
theorem claim_C6_invariant_abort_500 (st : ChatState) (est : ℕ) (msg text : String)
    (usage : Option (ℕ × ℕ × ℕ))
    (hadm : ¬ maxPotentialEnergyCost est > st.energyPoints)
    (hneg : st.energyPoints
        - energyCost (resolvedInputTokens est usage) (resolvedOutputTokens usage) < 0) :
    chatHandler st est msg (ModelCallResult.success text usage)
      = (ChatResponse.err500 text false, st) := by
  rw [chatHandler_success st est msg text usage hadm]
  unfold chatCommit
  rw [if_pos hneg]

/-- Witness for C6: balance 100, estimate 21 (admitted), actual usage of
1000000 prompt tokens costing 313 energy, which would make the balance
negative; the handler returns 500 with the reply and no state change. -/
theorem claim_C6_invariant_abort_500_witness :
    chatHandler sampleChatState 0 "question"
        (ModelCallResult.success "reply" (some (1000000, 0, 1000000)))
      = (ChatResponse.err500 "reply" false, sampleChatState) :=
  claim_C6_invariant_abort_500 sampleChatState 0 "question" "reply" (some (1000000, 0, 1000000))
    (by rw [maxPotentialEnergyCost_zero]; norm_num [sampleChatState])
    (by show sampleChatState.energyPoints - energyCost 1000000 0 < 0
        rw [energyCost_1000000_0]; norm_num [sampleChatState])

/-- C7 counterexample: in the chat-gemini.ts revision the user's turn is only
written in the post-call batch, so an admitted request whose model call fails
leaves the history without the user's turn — it is persisted zero times, not
exactly once (the balance is unchanged). -/
theorem claim_C7_model_failure_cex :
    ¬ maxPotentialEnergyCost 0 > sampleChatState.energyPoints
  ∧ (chatHandler sampleChatState 0 "hello" ModelCallResult.failure).2 = sampleChatState
  ∧ ((chatHandler sampleChatState 0 "hello" ModelCallResult.failure).2).chatHistory.count
      (userTurn "hello") = 0 := by
  have hadm : ¬ maxPotentialEnergyCost 0 > sampleChatState.energyPoints := by
    rw [maxPotentialEnergyCost_zero]
    norm_num [sampleChatState]
  have hrun : chatHandler sampleChatState 0 "hello" ModelCallResult.failure
      = (ChatResponse.unhandledException500, sampleChatState) := by
    unfold chatHandler
    rw [if_neg hadm]
  exact ⟨hadm, by rw [hrun], by rw [hrun]; rfl⟩

/-- C7 amended: in the revised chat handler, which persists the user's turn
before the model call, an admitted request whose model call fails leaves the
user's turn persisted exactly once, the balance unchanged and no assistant
turn or cost record written; in the chat-gemini.ts revision the same failure
leaves the state entirely unchanged (so the user's turn is not persisted at
all there), with the balance likewise unchanged. -/
theorem claim_C7_model_failure_state (st : ChatState) (est : ℕ) (msg : String)
    (hadm : ¬ maxPotentialEnergyCost est > st.energyPoints) :
    ((chatHandlerV2 st true est msg ModelCallResult.failure).2).chatHistory
        = st.chatHistory ++ [userTurn msg]
  ∧ ((chatHandlerV2 st true est msg ModelCallResult.failure).2).energyPoints
        = st.energyPoints
  ∧ ((chatHandlerV2 st true est msg ModelCallResult.failure).2).chatHistory.count
        (userTurn msg) = st.chatHistory.count (userTurn msg) + 1
  ∧ ((chatHandlerV2 st true est msg ModelCallResult.failure).2).chatHistory.countP
        (fun turn => decide (turn.role = Role.assistant))
        = st.chatHistory.countP (fun turn => decide (turn.role = Role.assistant))
  ∧ chatHandler st est msg ModelCallResult.failure
        = (ChatResponse.unhandledException500, st) := by
  have hstate : (chatHandlerV2 st true est msg ModelCallResult.failure).2
      = { st with chatHistory := st.chatHistory ++ [userTurn msg] } := by
    unfold chatHandlerV2 chatAfterSaveV2
    dsimp only
    rw [if_neg hadm]
  refine ⟨by rw [hstate], by rw [hstate], ?_, ?_, ?_⟩
  · rw [hstate]
    dsimp only
    rw [List.count_append]
    simp [List.count_cons]
  · rw [hstate]
    dsimp only
    rw [List.countP_append]
    simp [List.countP_cons, userTurn]
  · unfold chatHandler
    rw [if_neg hadm]

/-- Witness for C7 amended at concrete inputs. -/
theorem claim_C7_model_failure_state_witness :
    ((chatHandlerV2 sampleChatState true 0 "hi" ModelCallResult.failure).2).chatHistory
        = sampleChatState.chatHistory ++ [userTurn "hi"]
  ∧ ((chatHandlerV2 sampleChatState true 0 "hi" ModelCallResult.failure).2).energyPoints
        = sampleChatState.energyPoints
  ∧ ((chatHandlerV2 sampleChatState true 0 "hi" ModelCallResult.failure).2).chatHistory.count
        (userTurn "hi") = sampleChatState.chatHistory.count (userTurn "hi") + 1
  ∧ ((chatHandlerV2 sampleChatState true 0 "hi" ModelCallResult.failure).2).chatHistory.countP
        (fun turn => decide (turn.role = Role.assistant))
        = sampleChatState.chatHistory.countP (fun turn => decide (turn.role = Role.assistant))
  ∧ chatHandler sampleChatState 0 "hi" ModelCallResult.failure
        = (ChatResponse.unhandledException500, sampleChatState) :=
  claim_C7_model_failure_state sampleChatState 0 "hi"
    (by rw [maxPotentialEnergyCost_zero]; norm_num [sampleChatState])

/-- C8 counterexample: in the standalone webhook handler, a
subscription-deleted event that resolves to an account with balance 500 resets
`energyPoints` to 0 (the prior balance is affected) and writes the event's
period and price fields instead of clearing them. -/
theorem claim_C8_subscription_deleted_cex :
    richUserDoc.energyPoints = 500
  ∧ ((processStripeEvent sampleEnv "uid_1" richUserDoc
        (StripeEvent.customerSubscriptionDeleted canceledSubscription)).1).energyPoints = 0
  ∧ ((processStripeEvent sampleEnv "uid_1" richUserDoc
        (StripeEvent.customerSubscriptionDeleted canceledSubscription)).1).currentPeriodEnd
      = some 1747000000
  ∧ ((processStripeEvent sampleEnv "uid_1" richUserDoc
        (StripeEvent.customerSubscriptionDeleted canceledSubscription)).1).priceId
      = some "price_monthly" := by
  decide

/-- C8 amended: a subscription-deleted event that resolves to an account sets
the entitlement tier to none in both webhook revisions; the standalone handler
additionally resets the energy balance to 0 and records the event's status,
period and price fields (it does not clear them), while the revision bundled
with chat-gemini.ts stores status "canceled", clears the plan and endDate
fields and leaves the prior energy balance unaffected. -/
theorem claim_C8_subscription_deleted (env : WebhookEnv) (accountId : String)
    (doc : UserDoc) (docB : SubscriptionStatusDoc) (sub : StripeSubscription)
    (hres : env.uidFromCustomer sub.customer = some accountId) :
    (((processStripeEvent env accountId doc
          (StripeEvent.customerSubscriptionDeleted sub)).1).stripeRole = none
      ∧ ((processStripeEvent env accountId doc
          (StripeEvent.customerSubscriptionDeleted sub)).1).energyPoints = 0
      ∧ ((processStripeEvent env accountId doc
          (StripeEvent.customerSubscriptionDeleted sub)).1).subscriptionStatus
            = some sub.status
      ∧ ((processStripeEvent env accountId doc
          (StripeEvent.customerSubscriptionDeleted sub)).1).currentPeriodEnd
            = sub.current_period_end
      ∧ ((processStripeEvent env accountId doc
          (StripeEvent.customerSubscriptionDeleted sub)).1).priceId = sub.priceId)
  ∧ ((handleSubscriptionDeleted env.uidFromCustomer accountId docB sub).status
          = some "canceled"
      ∧ (handleSubscriptionDeleted env.uidFromCustomer accountId docB sub).plan = none
      ∧ (handleSubscriptionDeleted env.uidFromCustomer accountId docB sub).endDate = none
      ∧ (handleSubscriptionDeleted env.uidFromCustomer accountId docB sub).energyBalance
          = docB.energyBalance) := by
  have h1 : (processStripeEvent env accountId doc
      (StripeEvent.customerSubscriptionDeleted sub)).1
      = applySubscriptionUpdate doc sub none true := by
    simp [processStripeEvent, processSubscriptionEvent, hres]
  have h2 : handleSubscriptionDeleted env.uidFromCustomer accountId docB sub
      = { docB with
            status := some "canceled", plan := none, endDate := none,
            stripeCustomerId := some sub.customer,
            stripeSubscriptionId := some sub.id } := by
    simp [handleSubscriptionDeleted, hres]
  rw [h1, h2]
  simp [applySubscriptionUpdate]

/-- Witness for C8 amended at concrete inputs. -/
theorem claim_C8_subscription_deleted_witness :
    (((processStripeEvent sampleEnv "uid_1" richUserDoc
          (StripeEvent.customerSubscriptionDeleted canceledSubscription)).1).stripeRole = none
      ∧ ((processStripeEvent sampleEnv "uid_1" richUserDoc
          (StripeEvent.customerSubscriptionDeleted canceledSubscription)).1).energyPoints = 0
      ∧ ((processStripeEvent sampleEnv "uid_1" richUserDoc
          (StripeEvent.customerSubscriptionDeleted canceledSubscription)).1).subscriptionStatus
            = some canceledSubscription.status
      ∧ ((processStripeEvent sampleEnv "uid_1" richUserDoc
          (StripeEvent.customerSubscriptionDeleted canceledSubscription)).1).currentPeriodEnd
            = canceledSubscription.current_period_end
      ∧ ((processStripeEvent sampleEnv "uid_1" richUserDoc
          (StripeEvent.customerSubscriptionDeleted canceledSubscription)).1).priceId
            = canceledSubscription.priceId)
  ∧ ((handleSubscriptionDeleted sampleEnv.uidFromCustomer "uid_1" richSubStatusDoc
          canceledSubscription).status = some "canceled"
      ∧ (handleSubscriptionDeleted sampleEnv.uidFromCustomer "uid_1" richSubStatusDoc
          canceledSubscription).plan = none
      ∧ (handleSubscriptionDeleted sampleEnv.uidFromCustomer "uid_1" richSubStatusDoc
          canceledSubscription).endDate = none
      ∧ (handleSubscriptionDeleted sampleEnv.uidFromCustomer "uid_1" richSubStatusDoc
          canceledSubscription).energyBalance = richSubStatusDoc.energyBalance) :=
  claim_C8_subscription_deleted sampleEnv "uid_1" richUserDoc richSubStatusDoc
    canceledSubscription (by decide)

/-- C9 counterexample: the annual grant (111111) is not greater than twelve
times the monthly grant (12 * 11111 = 133332). -/
theorem claim_C9_grant_ratio_cex :
    ¬ (ANNUAL_ENERGY_GRANT > 12 * MONTHLY_ENERGY_GRANT) := by
  norm_num [ANNUAL_ENERGY_GRANT, MONTHLY_ENERGY_GRANT]

/-- C9 amended: the monthly and annual grants differ — in the standalone
webhook handler (11111 vs 111111) and in the revision bundled with
chat-gemini.ts (1111 vs 11111) — and in both cases the annual grant is more
than ten times but less than twelve times the monthly grant. -/
theorem claim_C9_grant_ratio :
    MONTHLY_ENERGY_GRANT ≠ ANNUAL_ENERGY_GRANT
  ∧ 10 * MONTHLY_ENERGY_GRANT < ANNUAL_ENERGY_GRANT
  ∧ ANNUAL_ENERGY_GRANT < 12 * MONTHLY_ENERGY_GRANT
  ∧ checkoutEnergyIncrementV2 "active" (some "monthly") = 1111
  ∧ checkoutEnergyIncrementV2 "active" (some "annual") = 11111
  ∧ checkoutEnergyIncrementV2 "active" (some "monthly")
      ≠ checkoutEnergyIncrementV2 "active" (some "annual")
  ∧ 10 * checkoutEnergyIncrementV2 "active" (some "monthly")
      < checkoutEnergyIncrementV2 "active" (some "annual")
  ∧ checkoutEnergyIncrementV2 "active" (some "annual")
      < 12 * checkoutEnergyIncrementV2 "active" (some "monthly") := by
  decide

/-- C10: a checkout-completed event whose retrieved subscription is active or
trialing but carries a price id matching neither configured plan derives role
none, yet the handler still increments the account's energy balance — by the
annual grant — because the increment amount is chosen as
`roleToSet === 'monthly' ? MONTHLY_ENERGY_GRANT : ANNUAL_ENERGY_GRANT` rather
than being gated on a recognized plan. -/
theorem claim_C10_unknown_plan_grants_annual (env : WebhookEnv) (accountId : String)
    (doc : UserDoc) (session : CheckoutSession) (subId customerId p : String)
    (sub : StripeSubscription)
    (hmode : session.mode = "subscription")
    (hcust : session.customer = some customerId)
    (hmeta : session.metadataFirebaseUid = some accountId)
    (hsub : session.subscription = some subId)
    (hret : env.retrieveSubscription subId = some sub)
    (hstatus : sub.status = "active" ∨ sub.status = "trialing")
    (hp : sub.priceId = some p)
    (hpm : p ≠ env.monthlyPriceId)
    (hpa : p ≠ env.annualPriceId) :
    getRoleFromSubscription env (some sub) = none
  ∧ ((processStripeEvent env accountId doc
        (StripeEvent.checkoutSessionCompleted session)).1).energyPoints
      = doc.energyPoints + ANNUAL_ENERGY_GRANT
  ∧ ((processStripeEvent env accountId doc
        (StripeEvent.checkoutSessionCompleted session)).1).stripeRole = none := by
  have hrole : getRoleFromSubscription env (some sub) = none := by
    unfold getRoleFromSubscription
    dsimp only
    rw [if_pos hstatus, hp]
    simp [hpm, hpa]
  have hrun : (processStripeEvent env accountId doc
      (StripeEvent.checkoutSessionCompleted session)).1
      = applyCheckoutUpdate doc customerId sub none := by
    simp [processStripeEvent, processCheckoutCompleted, hcust, hmode, hmeta, hsub, hret, hrole]
  refine ⟨hrole, ?_, ?_⟩
  · rw [hrun]
    simp [applyCheckoutUpdate, checkoutGrant]
  · rw [hrun]
    simp [applyCheckoutUpdate]

/-- Witness for C10: an active subscription priced with an unconfigured price
id ("price_other") still gets the annual grant of 111111 on a balance of 0. -/
theorem claim_C10_unknown_plan_grants_annual_witness :
    getRoleFromSubscription sampleEnv (some otherPriceSubscription) = none
  ∧ ((processStripeEvent sampleEnv "uid_1" emptyUserDoc
        (StripeEvent.checkoutSessionCompleted otherPriceSession)).1).energyPoints
      = emptyUserDoc.energyPoints + ANNUAL_ENERGY_GRANT
  ∧ ((processStripeEvent sampleEnv "uid_1" emptyUserDoc
        (StripeEvent.checkoutSessionCompleted otherPriceSession)).1).stripeRole = none :=
  claim_C10_unknown_plan_grants_annual sampleEnv "uid_1" emptyUserDoc otherPriceSession
    "sub_2" "cus_1" "price_other" otherPriceSubscription rfl rfl rfl rfl (by decide)
    (Or.inl rfl) rfl (by decide) (by decide)

end Luna
